import Mathlib

/-!
Shallow embedding of `src/figstats/stats.py` (class `Figshare`), a thin
client for the Figshare statistics API.  HTTP transport is modelled by an
oracle `Request → Except Err Json`; every operation is a pure function
returning its result together with the trace of requests it issued (in
order, including a final failing request), and, for the printing
operations, the list of printed messages.
-/

set_option autoImplicit false

/-- JSON-like values, as parsed HTTP response bodies and dictionary values.
Numbers are modelled as integers (the statistics payload fields used by the
client are integral). -/
inductive Json where
  | num (n : Int)
  | str (s : String)
  | arr (xs : List Json)
  | obj (fields : List (String × Json))

/-- Dictionary access `j[k]` on a JSON object: first binding of key `k`,
`none` when the key is absent or `j` is not an object. -/
def Json.get : Json → String → Option Json
  | .obj fields, k => fields.lookup k
  | _, _ => none

/-- Python-level exceptions and HTTP failures surfaced by the client. -/
inductive Err where
  | valueError (msg : String)
  | attributeError (attr : String)
  | keyError (key : String)
  | typeError (what : String)
  | httpError (code : Nat) (msg : String)
deriving DecidableEq

/-- An HTTP request as handed to `issue_request`: method, URL, headers and
optional query parameters. -/
structure Request where
  method : String
  url : String
  headers : List (String × String)
  params : Option (List (String × Nat))
deriving DecidableEq

/-- Oracle standing for the HTTP collaborator `issue_request`: maps a
request to its parsed JSON body or a failure. -/
abbrev Oracle := Request → Except Err Json

/-- Two-argument `os.path.join` (posix): an absolute second component
replaces the path, a trailing separator on the first suppresses the
inserted separator. -/
def pjoin (a b : String) : String :=
  if b.data.head? = some '/' then b
  else if a = "" ∨ a.data.getLast? = some '/' then a ++ b
  else a ++ "/" ++ b

/-- Variadic `os.path.join`, folding `pjoin` left to right as Python does. -/
def pjoins : String → List String → String
  | a, [] => a
  | a, b :: bs => pjoins (pjoin a b) bs

/-- Configuration state built by `Figshare.__init__`.  Optional fields model
attributes that are only set on some construction paths; reading an unset
one is an `AttributeError`. -/
structure Figshare where
  stats_baseurl : String
  institution : Bool
  institute : Option String
  stats_baseurl_institute : Option String
  basic_headers : List (String × String)
  basic_token : String
  main_baseurl : String
  main_baseurl_institute : Option String
  api_headers : List (String × String)
  api_token : String

/-- Constructor `Figshare.__init__(api_token, basic_token, institution,
institute)`: base URLs, the institute-scoped variants (only when the
corresponding argument is truthy), and the two header dictionaries (the
Authorization entry only when the corresponding token is non-empty). -/
def Figshare.init (api_token : String) (basic_token : String)
    (institution : Bool) (institute : String) : Figshare :=
  { stats_baseurl := "https://stats.figshare.com"
    institution := institution
    institute := if institute = "" then none else some institute
    stats_baseurl_institute :=
      if institute = "" then none
      else some (pjoin "https://stats.figshare.com" institute)
    basic_headers :=
      [("Content-Type", "application/json")] ++
        (if basic_token = "" then []
         else [("Authorization", "Basic " ++ basic_token)])
    basic_token := basic_token
    main_baseurl := "https://api.figshare.com/v2/account/"
    main_baseurl_institute :=
      if institution then
        some (pjoin "https://api.figshare.com/v2/account/" "institution")
      else none
    api_headers :=
      [("Content-Type", "application/json")] ++
        (if api_token = "" then []
         else [("Authorization", "token " ++ api_token)])
    api_token := api_token }

/-- Method `stats_endpoint(link, institution)`: join `link` onto the
institution-scoped statistics base when `institution` is true (an
`AttributeError` when no institute was configured), else onto the plain
statistics base. -/
def Figshare.stats_endpoint (fs : Figshare) (link : String)
    (institution : Bool) : Except Err String :=
  if institution then
    match fs.stats_baseurl_institute with
    | none => .error (.attributeError "stats_baseurl_institute")
    | some base => .ok (pjoin base link)
  else
    .ok (pjoin fs.stats_baseurl link)

/-- Shared body of the three-counter loops of `get_totals` and
`get_timeline`: for each counter build the URL, issue a GET with the given
headers, extract `field` from the body and record it under the counter key.
The second component is the trace of issued requests. -/
def counter_loop (oracle : Oracle) (headers : List (String × String))
    (mkUrl : String → Except Err String) (field : String) :
    List String → Except Err (List (String × Json)) × List Request
  | [] => (.ok [], [])
  | c :: cs =>
    match mkUrl c with
    | .error e => (.error e, [])
    | .ok url =>
      let req : Request :=
        { method := "GET", url := url, headers := headers, params := none }
      match oracle req with
      | .error e => (.error e, [req])
      | .ok body =>
        match body.get field with
        | none => (.error (.keyError field), [req])
        | some v =>
          match counter_loop oracle headers mkUrl field cs with
          | (.error e, tr) => (.error e, req :: tr)
          | (.ok d, tr) => (.ok ((c, v) :: d), req :: tr)

/-- Enumeration accepted by `get_totals` for the `item` argument. -/
def item_kinds : List String :=
  ["article", "author", "collection", "group", "project"]

/-- The fixed counter order of `get_totals` and `get_timeline`. -/
def counter_kinds : List String := ["views", "downloads", "shares"]

/-- Method `get_totals(item_id, item, institution)`: validate `item`
(`ValueError` otherwise, before any request), then for views, downloads and
shares GET `stats_endpoint('total/<counter>/<item>/<item_id>', institution)`
with the basic headers and collect the `totals` field of each body under
the counter key. -/
def Figshare.get_totals (fs : Figshare) (oracle : Oracle) (item_id : Int)
    (item : String) (institution : Bool) :
    Except Err (List (String × Json)) × List Request :=
  if item ∉ item_kinds then
    (.error (.valueError "Incorrect item type"), [])
  else
    counter_loop oracle fs.basic_headers
      (fun c =>
        fs.stats_endpoint (pjoins "total" [c, item, toString item_id])
          institution)
      "totals" counter_kinds

/-- Method `get_user_totals(author_id)`: `get_totals` with `item='author'`
and `institution=False`. -/
def Figshare.get_user_totals (fs : Figshare) (oracle : Oracle)
    (author_id : Int) : Except Err (List (String × Json)) × List Request :=
  fs.get_totals oracle author_id "author" false

/-- Method `get_timeline(item_id, item, granularity, institution)`: the same
three-counter loop with path
`timeline/<granularity>/<counter>/<item>/<item_id>` and extracted field
`timeline`; there is no validation of `item`. -/
def Figshare.get_timeline (fs : Figshare) (oracle : Oracle) (item_id : Int)
    (item : String) (granularity : String) (institution : Bool) :
    Except Err (List (String × Json)) × List Request :=
  counter_loop oracle fs.basic_headers
    (fun c =>
      fs.stats_endpoint
        (pjoins "timeline" [granularity, c, item, toString item_id])
        institution)
    "timeline" counter_kinds

/-- The request `get_totals` issues for one counter when
`institution=False`. -/
def totals_request (fs : Figshare) (counter item : String)
    (item_id : Int) : Request :=
  { method := "GET"
    url := pjoin fs.stats_baseurl (pjoins "total" [counter, item, toString item_id])
    headers := fs.basic_headers
    params := none }

/-- The request `get_timeline` issues for one counter when
`institution=False`. -/
def timeline_request (fs : Figshare) (granularity counter item : String)
    (item_id : Int) : Request :=
  { method := "GET"
    url := pjoin fs.stats_baseurl
      (pjoins "timeline" [granularity, counter, item, toString item_id])
    headers := fs.basic_headers
    params := none }

/-- Row of the accounts table after `drop(columns='institution_id')`: the
institutional user id and email of one account (identifier columns are
modelled as integers, matching the Figshare payloads). -/
structure AccountRow where
  id : Int
  email : String
deriving DecidableEq

/-- Row of the accounts table after `get_figshare_id` appended the
`author_id` column. -/
structure AuthorRow where
  id : Int
  email : String
  author_id : Int
deriving DecidableEq

/-- Loop body of `get_figshare_id`: for each row GET
`<endpoint>/<institute_id>` with the API headers and read the `id` field of
the body as the row's author id (`KeyError` when absent, a decode error
when not a number). -/
def figshare_id_loop (oracle : Oracle) (headers : List (String × String))
    (endpoint : String) :
    List AccountRow → Except Err (List AuthorRow) × List Request
  | [] => (.ok [], [])
  | row :: rest =>
    let req : Request :=
      { method := "GET", url := endpoint ++ "/" ++ toString row.id
        headers := headers, params := none }
    match oracle req with
    | .error e => (.error e, [req])
    | .ok body =>
      match body.get "id" with
      | some (.num aid) =>
        match figshare_id_loop oracle headers endpoint rest with
        | (.error e, tr) => (.error e, req :: tr)
        | (.ok rows, tr) =>
          (.ok ({ id := row.id, email := row.email, author_id := aid } :: rows),
           req :: tr)
      | some _ => (.error (.typeError "id"), [req])
      | none => (.error (.keyError "id"), [req])

/-- Method `get_figshare_id(accounts_df)`: resolve each row's author id via
`<main_baseurl_institute>/users/<institute_id>` and append it as the
`author_id` column (an `AttributeError` when the client was constructed
with `institution=False`). -/
def Figshare.get_figshare_id (fs : Figshare) (oracle : Oracle)
    (accounts_df : List AccountRow) :
    Except Err (List AuthorRow) × List Request :=
  match fs.main_baseurl_institute with
  | none => (.error (.attributeError "main_baseurl_institute"), [])
  | some base => figshare_id_loop oracle fs.api_headers (pjoin base "users") accounts_df

/-- Decoding of one element of the accounts payload into a table row: the
integral `id`, the string `email`, and the `institution_id` column that
`retrieve_institution_users` drops. -/
def parse_account (j : Json) : Option AccountRow :=
  match j.get "id", j.get "email", j.get "institution_id" with
  | some (.num i), some (.str e), some _ => some { id := i, email := e }
  | _, _, _ => none

/-- Decoding of the accounts payload (a JSON array of account objects) into
the accounts table, `pd.DataFrame(accounts)` followed by
`drop(columns='institution_id')`. -/
def parse_accounts : Json → Option (List AccountRow)
  | .arr xs => xs.mapM parse_account
  | _ => none

/-- Substring test, Python's `in` / `str.contains` for a fixed pattern. -/
def strContains (s pat : String) : Bool :=
  (s.splitOn pat).length != 1

/-- Row filter applied by `retrieve_institution_users(ignore_admin=True)`:
drop rows whose email is the administrative address or matches the
test-account pattern. -/
def admin_filter (rows : List AccountRow) : List AccountRow :=
  rows.filter fun r =>
    !(r.email == "data-management@email.arizona.edu" ||
      strContains r.email "-test@email.arizona.edu")

/-- Method `retrieve_institution_users(ignore_admin)`: GET
`<main_baseurl_institute>/accounts` with `page=1, page_size=1000` and the
API headers, decode the rows, optionally (printing a notice) drop
administrative and test accounts, then resolve author ids via
`get_figshare_id`.  Third component: printed messages. -/
def Figshare.retrieve_institution_users (fs : Figshare) (oracle : Oracle)
    (ignore_admin : Bool) :
    Except Err (List AuthorRow) × List Request × List String :=
  match fs.main_baseurl_institute with
  | none => (.error (.attributeError "main_baseurl_institute"), [], [])
  | some base =>
    let req : Request :=
      { method := "GET", url := pjoin base "accounts"
        headers := fs.api_headers
        params := some [("page", 1), ("page_size", 1000)] }
    match oracle req with
    | .error e => (.error e, [req], [])
    | .ok accounts =>
      match parse_accounts accounts with
      | none => (.error (.typeError "accounts"), [req], [])
      | some rows =>
        let printed :=
          if ignore_admin then ["Excluding administrative and test accounts"]
          else []
        let rows := if ignore_admin then admin_filter rows else rows
        let gf := fs.get_figshare_id oracle rows
        (gf.1, req :: gf.2, printed)

/-- Python dictionary assignment `d[k] = v`: overwrite in place when the key
exists, append otherwise. -/
def dict_insert {α : Type} (k : String) (v : α) :
    List (String × α) → List (String × α)
  | [] => [(k, v)]
  | (k', v') :: rest =>
    if k' = k then (k', v) :: rest else (k', v') :: dict_insert k v rest

/-- Loop body of `get_institution_totals`: for each author id in order call
`get_user_totals` and store the result under `str(author_id)` in the
accumulated dictionary. -/
def inst_loop (fs : Figshare) (oracle : Oracle)
    (acc : List (String × List (String × Json))) :
    List Int → Except Err (List (String × List (String × Json))) × List Request
  | [] => (.ok acc, [])
  | a :: rest =>
    let step := fs.get_user_totals oracle a
    match step.1 with
    | .error e => (.error e, step.2)
    | .ok td =>
      let next := inst_loop fs oracle (dict_insert (toString a) td acc) rest
      (next.1, step.2 ++ next.2)

/-- Label slice `df.loc[0:5]` of a table carrying the default sequential
index: the rows with labels 0 through 5 inclusive. -/
def loc_0_5 {α : Type} (rows : List α) : List α := rows.take 6

/-- Method `get_institution_totals(df, by_method)`: when no table is given,
obtain one via `retrieve_institution_users` for `by_method='author'`, or
only print a notice for `by_method='article'` (the table stays absent and
the subsequent `df.loc` access is an `AttributeError`); then query
`get_user_totals` for the `author_id` of each row of `df.loc[0:5]` and key
the results by `str(author_id)`.  Third component: printed messages. -/
def Figshare.get_institution_totals (fs : Figshare) (oracle : Oracle) :
    Option (List AuthorRow) → String →
    Except Err (List (String × List (String × Json))) × List Request × List String
  | some rows, _ =>
    let il := inst_loop fs oracle [] ((loc_0_5 rows).map fun r => r.author_id)
    (il.1, il.2, [])
  | none, by_method =>
    if by_method = "author" then
      let ru := fs.retrieve_institution_users oracle false
      match ru.1 with
      | .error e => (.error e, ru.2.1, ru.2.2)
      | .ok rows =>
        let il := inst_loop fs oracle [] ((loc_0_5 rows).map fun r => r.author_id)
        (il.1, ru.2.1 ++ il.2, ru.2.2)
    else
      let printed :=
        if by_method = "article" then ["Need to retrieve articles"] else []
      (.error (.attributeError "loc"), [], printed)

/-- The accounts-listing request of `retrieve_institution_users`. -/
def accounts_request (base : String) (headers : List (String × String)) : Request :=
  { method := "GET", url := pjoin base "accounts", headers := headers
    params := some [("page", 1), ("page_size", 1000)] }

/-- Client with no tokens, no institution flag and no institute. -/
def fs0 : Figshare := Figshare.init "" "" false ""

/-- Client configured with an institute identifier. -/
def fsI : Figshare := Figshare.init "" "" false "uaz"

/-- Client with the institution flag set (account-management base
present). -/
def fsT : Figshare := Figshare.init "tok" "" true ""

/-- Oracle returning the body of the round-trip scenario of the spec for
every request. -/
def oracle42 : Oracle := fun _ => .ok (.obj [("totals", .num 42)])

/-- Oracle returning a one-element timeline body for every request. -/
def oracleTl : Oracle := fun _ => .ok (.obj [("timeline", .arr [.num 7])])

/-- Oracle failing every request with an HTTP 500. -/
def oracleFail : Oracle := fun _ => .error (.httpError 500 "server error")

/-- Oracle serving one institutional account and author id 77 on the user
lookup. -/
def oracleAcc : Oracle := fun r =>
  if r.params.isSome then
    .ok (.arr [.obj [("id", .num 5), ("email", .str "e@x"),
                     ("institution_id", .num 3)]])
  else .ok (.obj [("id", .num 77)])

/-- Seven-row accounts table used to exercise the six-row cap. -/
def df7 : List AuthorRow :=
  [⟨1, "a@x", 11⟩, ⟨2, "b@x", 12⟩, ⟨3, "c@x", 13⟩, ⟨4, "d@x", 14⟩,
   ⟨5, "e@x", 15⟩, ⟨6, "f@x", 16⟩, ⟨7, "g@x", 17⟩]

/-- Helper: a failing response to any request in the trace of
`counter_loop` forces the loop's result to be exactly that error. -/
theorem counter_loop_abort (oracle : Oracle) (headers : List (String × String))
    (mkUrl : String → Except Err String) (field : String) :
    ∀ (cs : List String) (r : Request) (e : Err),
      r ∈ (counter_loop oracle headers mkUrl field cs).2 →
      oracle r = .error e →
      (counter_loop oracle headers mkUrl field cs).1 = .error e := by
  intro cs
  induction cs with
  | nil => intro r e hr _; simp [counter_loop] at hr
  | cons c cs ih =>
    intro r e hr hre
    simp only [counter_loop] at hr ⊢
    cases hu : mkUrl c with
    | error e2 => simp only [hu] at hr; simp at hr
    | ok url =>
      simp only [hu] at hr ⊢
      cases ho : oracle ⟨"GET", url, headers, none⟩ with
      | error e2 =>
        simp only [ho] at hr ⊢
        simp only [List.mem_singleton] at hr
        subst hr
        rw [ho] at hre
        injection hre with h
        rw [h]
      | ok body =>
        simp only [ho] at hr ⊢
        cases hf : body.get field with
        | none =>
          simp only [hf] at hr ⊢
          simp only [List.mem_singleton] at hr
          subst hr
          rw [ho] at hre
          simp at hre
        | some v =>
          simp only [hf] at hr ⊢
          rcases hrec : counter_loop oracle headers mkUrl field cs with ⟨res, tr⟩
          rw [hrec] at hr
          specialize ih r e
          rw [hrec] at ih
          cases res with
          | error e2 =>
            replace hr : r ∈ (⟨"GET", url, headers, none⟩ : Request) :: tr := hr
            rcases List.mem_cons.mp hr with h1 | h1
            · subst h1; rw [ho] at hre; simp at hre
            · exact ih h1 hre
          | ok d =>
            replace hr : r ∈ (⟨"GET", url, headers, none⟩ : Request) :: tr := hr
            rcases List.mem_cons.mp hr with h1 | h1
            · subst h1; rw [ho] at hre; simp at hre
            · exact absurd (ih h1 hre) (by simp)

/-- Helper: the first request of a non-empty `counter_loop` is always the
one built for the first counter, whatever the oracle answers. -/
theorem counter_loop_head (oracle : Oracle) (headers : List (String × String))
    (mkUrl : String → Except Err String) (field : String) (c : String)
    (cs : List String) (url : String) (hu : mkUrl c = .ok url) :
    ((counter_loop oracle headers mkUrl field (c :: cs)).2).head? =
      some ⟨"GET", url, headers, none⟩ := by
  simp only [counter_loop, hu]
  cases ho : oracle ⟨"GET", url, headers, none⟩ with
  | error e => simp
  | ok body =>
    cases hf : body.get field with
    | none => simp [hf]
    | some v =>
      simp only [hf]
      rcases hrec : counter_loop oracle headers mkUrl field cs with ⟨res, tr⟩
      cases res <;> simp

/-- Helper: every request in a `counter_loop` trace was built, for one of
the listed counters, from a successful URL construction. -/
theorem counter_loop_trace (oracle : Oracle) (headers : List (String × String))
    (mkUrl : String → Except Err String) (field : String) :
    ∀ (cs : List String) (r : Request),
      r ∈ (counter_loop oracle headers mkUrl field cs).2 →
      ∃ c ∈ cs, ∃ url, mkUrl c = .ok url ∧
        r = { method := "GET", url := url, headers := headers, params := none } := by
  intro cs
  induction cs with
  | nil => intro r hr; simp [counter_loop] at hr
  | cons c cs ih =>
    intro r hr
    simp only [counter_loop] at hr
    cases hu : mkUrl c with
    | error e => simp [hu] at hr
    | ok url =>
      simp only [hu] at hr
      cases ho : oracle ⟨"GET", url, headers, none⟩ with
      | error e =>
        simp only [ho, List.mem_singleton] at hr
        exact ⟨c, by simp, url, hu, hr⟩
      | ok body =>
        simp only [ho] at hr
        cases hf : body.get field with
        | none =>
          simp only [hf, List.mem_singleton] at hr
          exact ⟨c, by simp, url, hu, hr⟩
        | some v =>
          simp only [hf] at hr
          rcases hrec : counter_loop oracle headers mkUrl field cs with ⟨res, tr⟩
          rw [hrec] at hr
          have hr2 : r ∈ (⟨"GET", url, headers, none⟩ : Request) :: tr := by
            cases res <;> exact hr
          rcases List.mem_cons.mp hr2 with h1 | h1
          · exact ⟨c, by simp, url, hu, h1⟩
          · obtain ⟨c2, hc2, u2, hu2, hreq⟩ := ih r (by rw [hrec]; exact h1)
            exact ⟨c2, by simp [hc2], u2, hu2, hreq⟩

/-- Helper: a failing response to any request `get_totals` issued forces its
result to be exactly that error. -/
theorem Figshare.get_totals_abort (fs : Figshare) (oracle : Oracle)
    (item_id : Int) (item : String) (institution : Bool) (r : Request)
    (e : Err) (hr : r ∈ (fs.get_totals oracle item_id item institution).2)
    (hre : oracle r = .error e) :
    (fs.get_totals oracle item_id item institution).1 = .error e := by
  by_cases hi : item ∈ item_kinds
  · unfold Figshare.get_totals at hr ⊢
    rw [if_neg (not_not_intro hi)] at hr ⊢
    exact counter_loop_abort _ _ _ _ _ r e hr hre
  · unfold Figshare.get_totals at hr
    rw [if_pos hi] at hr
    simp at hr

/-- Helper: a failing response to any request `get_timeline` issued forces
its result to be exactly that error. -/
theorem Figshare.get_timeline_abort (fs : Figshare) (oracle : Oracle)
    (item_id : Int) (item granularity : String) (institution : Bool)
    (r : Request) (e : Err)
    (hr : r ∈ (fs.get_timeline oracle item_id item granularity institution).2)
    (hre : oracle r = .error e) :
    (fs.get_timeline oracle item_id item granularity institution).1 = .error e := by
  unfold Figshare.get_timeline at hr ⊢
  exact counter_loop_abort _ _ _ _ _ r e hr hre

/-- Helper: a failing response to any request in the trace of
`figshare_id_loop` forces the loop's result to be exactly that error. -/
theorem figshare_id_loop_abort (oracle : Oracle)
    (headers : List (String × String)) (endpoint : String) :
    ∀ (rows : List AccountRow) (r : Request) (e : Err),
      r ∈ (figshare_id_loop oracle headers endpoint rows).2 →
      oracle r = .error e →
      (figshare_id_loop oracle headers endpoint rows).1 = .error e := by
  intro rows
  induction rows with
  | nil => intro r e hr _; simp [figshare_id_loop] at hr
  | cons row rest ih =>
    intro r e hr hre
    simp only [figshare_id_loop] at hr ⊢
    cases ho : oracle ⟨"GET", endpoint ++ "/" ++ toString row.id, headers, none⟩ with
    | error e2 =>
      simp only [ho] at hr ⊢
      simp only [List.mem_singleton] at hr
      subst hr
      rw [ho] at hre
      injection hre with h
      rw [h]
    | ok body =>
      simp only [ho] at hr ⊢
      cases hf : body.get "id" with
      | none =>
        simp only [hf] at hr ⊢
        simp only [List.mem_singleton] at hr
        subst hr; rw [ho] at hre; simp at hre
      | some v =>
        simp only [hf] at hr ⊢
        cases v with
        | num aid =>
          rcases hrec : figshare_id_loop oracle headers endpoint rest with ⟨res, tr⟩
          rw [hrec] at hr
          specialize ih r e
          rw [hrec] at ih
          cases res with
          | error e2 =>
            replace hr : r ∈ (⟨"GET", endpoint ++ "/" ++ toString row.id,
                headers, none⟩ : Request) :: tr := hr
            rcases List.mem_cons.mp hr with h1 | h1
            · subst h1; rw [ho] at hre; simp at hre
            · exact ih h1 hre
          | ok d =>
            replace hr : r ∈ (⟨"GET", endpoint ++ "/" ++ toString row.id,
                headers, none⟩ : Request) :: tr := hr
            rcases List.mem_cons.mp hr with h1 | h1
            · subst h1; rw [ho] at hre; simp at hre
            · exact absurd (ih h1 hre) (by simp)
        | str s =>
          simp only [List.mem_singleton] at hr
          subst hr; rw [ho] at hre; simp at hre
        | arr xs =>
          simp only [List.mem_singleton] at hr
          subst hr; rw [ho] at hre; simp at hre
        | obj flds =>
          simp only [List.mem_singleton] at hr
          subst hr; rw [ho] at hre; simp at hre

/-- Helper: every request in a `figshare_id_loop` trace is a user lookup
under the given endpoint, with no query parameters. -/
theorem figshare_id_loop_trace (oracle : Oracle)
    (headers : List (String × String)) (endpoint : String) :
    ∀ (rows : List AccountRow) (r : Request),
      r ∈ (figshare_id_loop oracle headers endpoint rows).2 →
      ∃ i : Int, r = { method := "GET", url := endpoint ++ "/" ++ toString i
                       headers := headers, params := none } := by
  intro rows
  induction rows with
  | nil => intro r hr; simp [figshare_id_loop] at hr
  | cons row rest ih =>
    intro r hr
    simp only [figshare_id_loop] at hr
    cases ho : oracle ⟨"GET", endpoint ++ "/" ++ toString row.id, headers, none⟩ with
    | error e =>
      simp only [ho, List.mem_singleton] at hr
      exact ⟨row.id, hr⟩
    | ok body =>
      simp only [ho] at hr
      cases hf : body.get "id" with
      | none =>
        simp only [hf, List.mem_singleton] at hr
        exact ⟨row.id, hr⟩
      | some v =>
        simp only [hf] at hr
        cases v with
        | num aid =>
          rcases hrec : figshare_id_loop oracle headers endpoint rest with ⟨res, tr⟩
          rw [hrec] at hr
          have hr2 : r ∈ (⟨"GET", endpoint ++ "/" ++ toString row.id,
              headers, none⟩ : Request) :: tr := by
            cases res <;> exact hr
          rcases List.mem_cons.mp hr2 with h1 | h1
          · exact ⟨row.id, h1⟩
          · exact ih r (by rw [hrec]; exact h1)
        | str s => simp only [List.mem_singleton] at hr; exact ⟨row.id, hr⟩
        | arr xs => simp only [List.mem_singleton] at hr; exact ⟨row.id, hr⟩
        | obj flds => simp only [List.mem_singleton] at hr; exact ⟨row.id, hr⟩

/-- Helper: a failing response to any request `get_figshare_id` issued
forces its result to be exactly that error. -/
theorem Figshare.get_figshare_id_abort (fs : Figshare) (oracle : Oracle)
    (rows : List AccountRow) (r : Request) (e : Err)
    (hr : r ∈ (fs.get_figshare_id oracle rows).2)
    (hre : oracle r = .error e) :
    (fs.get_figshare_id oracle rows).1 = .error e := by
  unfold Figshare.get_figshare_id at hr ⊢
  cases hb : fs.main_baseurl_institute with
  | none => simp only [hb] at hr; simp at hr
  | some base =>
    simp only [hb] at hr ⊢
    exact figshare_id_loop_abort oracle fs.api_headers (pjoin base "users") rows r e hr hre

/-- Helper: `get_user_totals` restates the abort property of `get_totals`. -/
theorem Figshare.get_user_totals_abort (fs : Figshare) (oracle : Oracle)
    (author_id : Int) (r : Request) (e : Err)
    (hr : r ∈ (fs.get_user_totals oracle author_id).2)
    (hre : oracle r = .error e) :
    (fs.get_user_totals oracle author_id).1 = .error e :=
  fs.get_totals_abort oracle author_id "author" false r e hr hre

/-- Helper: a failing response to any request `retrieve_institution_users`
issued forces its result to be exactly that error. -/
theorem Figshare.retrieve_institution_users_abort (fs : Figshare)
    (oracle : Oracle) (ia : Bool) (r : Request) (e : Err)
    (hr : r ∈ (fs.retrieve_institution_users oracle ia).2.1)
    (hre : oracle r = .error e) :
    (fs.retrieve_institution_users oracle ia).1 = .error e := by
  unfold Figshare.retrieve_institution_users at hr ⊢
  cases hb : fs.main_baseurl_institute with
  | none => simp only [hb] at hr; simp at hr
  | some base =>
    simp only [hb] at hr ⊢
    cases ho : oracle ⟨"GET", pjoin base "accounts", fs.api_headers,
        some [("page", 1), ("page_size", 1000)]⟩ with
    | error e2 =>
      simp only [ho] at hr ⊢
      simp only [List.mem_singleton] at hr
      subst hr
      rw [ho] at hre
      injection hre with h
      rw [h]
    | ok accounts =>
      simp only [ho] at hr ⊢
      cases hp : parse_accounts accounts with
      | none =>
        simp only [hp] at hr ⊢
        simp only [List.mem_singleton] at hr
        subst hr; rw [ho] at hre; simp at hre
      | some rows =>
        simp only [hp] at hr ⊢
        rcases List.mem_cons.mp hr with h1 | h1
        · subst h1; rw [ho] at hre; simp at hre
        · exact fs.get_figshare_id_abort oracle _ r e h1 hre

/-- Helper: a failing response to any request in the trace of `inst_loop`
forces the loop's result to be exactly that error. -/
theorem inst_loop_abort (fs : Figshare) (oracle : Oracle) :
    ∀ (as : List Int) (acc : List (String × List (String × Json)))
      (r : Request) (e : Err),
      r ∈ (inst_loop fs oracle acc as).2 →
      oracle r = .error e →
      (inst_loop fs oracle acc as).1 = .error e := by
  intro as
  induction as with
  | nil => intro acc r e hr _; simp [inst_loop] at hr
  | cons a rest ih =>
    intro acc r e hr hre
    simp only [inst_loop] at hr ⊢
    cases hu : (fs.get_user_totals oracle a).1 with
    | error e2 =>
      simp only [hu] at hr ⊢
      have h2 := fs.get_user_totals_abort oracle a r e hr hre
      rw [hu] at h2
      injection h2 with hh
      rw [hh]
    | ok td =>
      simp only [hu] at hr ⊢
      rcases List.mem_append.mp hr with h1 | h1
      · have h2 := fs.get_user_totals_abort oracle a r e h1 hre
        rw [hu] at h2
        exact absurd h2 (by simp)
      · exact ih (dict_insert (toString a) td acc) r e h1 hre

/-- Helper: every request in an `inst_loop` trace belongs to the
`get_user_totals` call of one of the listed author ids. -/
theorem inst_loop_trace (fs : Figshare) (oracle : Oracle) :
    ∀ (as : List Int) (acc : List (String × List (String × Json)))
      (r : Request),
      r ∈ (inst_loop fs oracle acc as).2 →
      ∃ a ∈ as, r ∈ (fs.get_user_totals oracle a).2 := by
  intro as
  induction as with
  | nil => intro acc r hr; simp [inst_loop] at hr
  | cons a rest ih =>
    intro acc r hr
    simp only [inst_loop] at hr
    cases hu : (fs.get_user_totals oracle a).1 with
    | error e2 =>
      simp only [hu] at hr
      exact ⟨a, by simp, hr⟩
    | ok td =>
      simp only [hu] at hr
      rcases List.mem_append.mp hr with h1 | h1
      · exact ⟨a, by simp, h1⟩
      · obtain ⟨b, hb, hmem⟩ := ih (dict_insert (toString a) td acc) r h1
        exact ⟨b, by simp [hb], hmem⟩

/-- Helper: the key set after a Python dictionary assignment is the old key
set together with the assigned key. -/
theorem dict_insert_keys {α : Type} (k0 : String) (v : α) :
    ∀ (l : List (String × α)) (k : String),
      k ∈ (dict_insert k0 v l).map Prod.fst ↔ k ∈ l.map Prod.fst ∨ k = k0 := by
  intro l
  induction l with
  | nil => intro k; simp [dict_insert]
  | cons p rest ih =>
    intro k
    obtain ⟨k1, v1⟩ := p
    simp only [dict_insert]
    by_cases h : k1 = k0
    · rw [if_pos h]
      subst h
      simp only [List.map_cons, List.mem_cons]
      tauto
    · rw [if_neg h]
      simp only [List.map_cons, List.mem_cons]
      rw [ih k]
      tauto

/-- Helper: on success, the keys produced by `inst_loop` are the starting
keys together with the string forms of the listed author ids. -/
theorem inst_loop_keys (fs : Figshare) (oracle : Oracle) :
    ∀ (as : List Int) (acc m : List (String × List (String × Json))),
      (inst_loop fs oracle acc as).1 = .ok m →
      ∀ k : String, k ∈ m.map Prod.fst ↔
        (k ∈ acc.map Prod.fst ∨ ∃ a ∈ as, k = toString a) := by
  intro as
  induction as with
  | nil =>
    intro acc m hm k
    simp only [inst_loop] at hm
    injection hm with h
    subst h
    simp
  | cons a rest ih =>
    intro acc m hm k
    simp only [inst_loop] at hm
    cases hu : (fs.get_user_totals oracle a).1 with
    | error e =>
      simp only [hu] at hm
      simp at hm
    | ok td =>
      simp only [hu] at hm
      have ih2 := ih (dict_insert (toString a) td acc) m hm k
      rw [dict_insert_keys] at ih2
      rw [ih2]
      constructor
      · rintro ((h | h) | h)
        · exact Or.inl h
        · exact Or.inr ⟨a, by simp, h⟩
        · obtain ⟨b, hb, hk⟩ := h
          exact Or.inr ⟨b, by simp [hb], hk⟩
      · rintro (h | h)
        · exact Or.inl (Or.inl h)
        · obtain ⟨b, hb, hk⟩ := h
          rcases List.mem_cons.mp hb with h1 | h1
          · subst h1; exact Or.inl (Or.inr hk)
          · exact Or.inr ⟨b, h1, hk⟩

/-- Helper: a failing response to any request `get_institution_totals`
issued forces its result to be exactly that error. -/
theorem Figshare.get_institution_totals_abort (fs : Figshare) (oracle : Oracle)
    (df : Option (List AuthorRow)) (bm : String) (r : Request) (e : Err)
    (hr : r ∈ (fs.get_institution_totals oracle df bm).2.1)
    (hre : oracle r = .error e) :
    (fs.get_institution_totals oracle df bm).1 = .error e := by
  cases df with
  | some rows =>
    simp only [Figshare.get_institution_totals] at hr ⊢
    exact inst_loop_abort fs oracle ((loc_0_5 rows).map fun r => r.author_id)
      [] r e hr hre
  | none =>
    simp only [Figshare.get_institution_totals] at hr ⊢
    by_cases hb : bm = "author"
    · rw [if_pos hb] at hr ⊢
      cases hru : (fs.retrieve_institution_users oracle false).1 with
      | error e2 =>
        simp only [hru] at hr ⊢
        have h2 := fs.retrieve_institution_users_abort oracle false r e hr hre
        rw [hru] at h2
        injection h2 with hh
        rw [hh]
      | ok rows =>
        simp only [hru] at hr ⊢
        rcases List.mem_append.mp hr with h1 | h1
        · have h2 := fs.retrieve_institution_users_abort oracle false r e h1 hre
          rw [hru] at h2
          exact absurd h2 (by simp)
        · exact inst_loop_abort fs oracle
            ((loc_0_5 rows).map fun r => r.author_id) [] r e h1 hre
    · rw [if_neg hb] at hr
      simp at hr

/-- C5: for every itemKind value outside the fixed enumeration, `get_totals`
fails with the InvalidArgument error (`ValueError`) and issues zero HTTP
requests. -/
theorem spec_c5 (fs : Figshare) (oracle : Oracle) (item_id : Int)
    (item : String) (institution : Bool) (h : item ∉ item_kinds) :
    fs.get_totals oracle item_id item institution =
      (.error (.valueError "Incorrect item type"), []) := by
  unfold Figshare.get_totals
  rw [if_pos h]

/-- Witness for C5 at the unsupported kind `dataset`. -/
theorem spec_c5_witness :
    "dataset" ∉ item_kinds ∧
      fs0.get_totals oracle42 7 "dataset" true =
        (.error (.valueError "Incorrect item type"), []) :=
  ⟨by decide, spec_c5 fs0 oracle42 7 "dataset" true (by decide)⟩

/-- C10: when a table is supplied to `get_institution_totals`, the
`by_method` argument is ignored entirely: result, request trace and printed
output are identical for every value. -/
theorem spec_c10 (fs : Figshare) (oracle : Oracle) (df : List AuthorRow)
    (b1 b2 : String) :
    fs.get_institution_totals oracle (some df) b1 =
      fs.get_institution_totals oracle (some df) b2 := rfl

/-- Counterexample to C3: with no table and `by_method='article'`,
`get_institution_totals` does print the diagnostic but then fails with an
`AttributeError` (the absent table is sliced), instead of returning an empty
no-data result. -/
theorem spec_c3_counterexample :
    (fs0.get_institution_totals oracle42 none "article").1 =
        .error (.attributeError "loc") ∧
      (fs0.get_institution_totals oracle42 none "article").2.2 =
        ["Need to retrieve articles"] :=
  ⟨rfl, rfl⟩

/-- C3 (amended): with no table and `by_method='article'`,
`get_institution_totals` prints the diagnostic message and then raises an
`AttributeError` on the absent table, issuing no requests and returning no
result. -/
theorem spec_c3_amended (fs : Figshare) (oracle : Oracle) :
    fs.get_institution_totals oracle none "article" =
      (.error (.attributeError "loc"), [], ["Need to retrieve articles"]) := by
  simp [Figshare.get_institution_totals]

/-- Counterexample to C1: with an institute configured, passing
`institution=True` to `get_totals` issues the requests against the
institution-scoped endpoint, so the flag does change which endpoint URL is
hit. -/
theorem spec_c1_counterexample :
    ((fsI.get_totals oracle42 99 "article" true).2.map Request.url) ≠
      ((fsI.get_totals oracle42 99 "article" false).2.map Request.url) := by
  decide

/-- C1 (amended): `get_totals` forwards its institution flag to
`stats_endpoint`: with an institute configured, `institution=True` scopes
the totals URLs to the institution base while `institution=False` uses the
plain statistics base. -/
theorem spec_c1_amended (api_token basic_token : String) (instflag : Bool)
    (institute : String) (oracle : Oracle) (item_id : Int) (item : String)
    (hin : institute ≠ "") (hitem : item ∈ item_kinds) :
    ((Figshare.init api_token basic_token instflag institute).get_totals oracle
        item_id item true).2.head? =
      some ⟨"GET",
        pjoin (pjoin "https://stats.figshare.com" institute)
          (pjoins "total" ["views", item, toString item_id]),
        (Figshare.init api_token basic_token instflag institute).basic_headers,
        none⟩ ∧
    ((Figshare.init api_token basic_token instflag institute).get_totals oracle
        item_id item false).2.head? =
      some (totals_request (Figshare.init api_token basic_token instflag institute)
        "views" item item_id) := by
  have hbase : (Figshare.init api_token basic_token instflag
      institute).stats_baseurl_institute =
      some (pjoin "https://stats.figshare.com" institute) := by
    show (if institute = "" then none
      else some (pjoin "https://stats.figshare.com" institute)) = _
    rw [if_neg hin]
  constructor
  · unfold Figshare.get_totals
    rw [if_neg (not_not_intro hitem)]
    have hu : (Figshare.init api_token basic_token instflag
        institute).stats_endpoint
        (pjoins "total" ["views", item, toString item_id]) true =
        .ok (pjoin (pjoin "https://stats.figshare.com" institute)
          (pjoins "total" ["views", item, toString item_id])) := by
      simp [Figshare.stats_endpoint, hbase]
    exact counter_loop_head oracle _ _ "totals" "views" ["downloads", "shares"]
      _ hu
  · unfold Figshare.get_totals
    rw [if_neg (not_not_intro hitem)]
    exact counter_loop_head oracle _ _ "totals" "views" ["downloads", "shares"]
      _ rfl

/-- Witness for C1 (amended) at institute `uaz` and article 99. -/
theorem spec_c1_amended_witness :
    ((Figshare.init "" "" false "uaz").get_totals oracle42 99 "article"
        true).2.head? =
      some ⟨"GET",
        pjoin (pjoin "https://stats.figshare.com" "uaz")
          (pjoins "total" ["views", "article", toString (99 : Int)]),
        (Figshare.init "" "" false "uaz").basic_headers, none⟩ ∧
    ((Figshare.init "" "" false "uaz").get_totals oracle42 99 "article"
        false).2.head? =
      some (totals_request (Figshare.init "" "" false "uaz") "views" "article"
        99) :=
  spec_c1_amended "" "" false "uaz" oracle42 99 "article" (by decide) (by decide)

/-- C4: for each multi-request operation, a failing response to any request
it issued forces the whole operation to abort with exactly that error; no
partial result is returned. -/
theorem spec_c4 (fs : Figshare) (oracle : Oracle) :
    (∀ (item_id : Int) (item : String) (institution : Bool) (r : Request)
       (e : Err),
      r ∈ (fs.get_totals oracle item_id item institution).2 →
      oracle r = .error e →
      (fs.get_totals oracle item_id item institution).1 = .error e) ∧
    (∀ (item_id : Int) (item granularity : String) (institution : Bool)
       (r : Request) (e : Err),
      r ∈ (fs.get_timeline oracle item_id item granularity institution).2 →
      oracle r = .error e →
      (fs.get_timeline oracle item_id item granularity institution).1 =
        .error e) ∧
    (∀ (rows : List AccountRow) (r : Request) (e : Err),
      r ∈ (fs.get_figshare_id oracle rows).2 →
      oracle r = .error e →
      (fs.get_figshare_id oracle rows).1 = .error e) ∧
    (∀ (df : Option (List AuthorRow)) (by_method : String) (r : Request)
       (e : Err),
      r ∈ (fs.get_institution_totals oracle df by_method).2.1 →
      oracle r = .error e →
      (fs.get_institution_totals oracle df by_method).1 = .error e) :=
  ⟨fun item_id item institution r e hr hre =>
      fs.get_totals_abort oracle item_id item institution r e hr hre,
   fun item_id item granularity institution r e hr hre =>
      fs.get_timeline_abort oracle item_id item granularity institution r e hr hre,
   fun rows r e hr hre => fs.get_figshare_id_abort oracle rows r e hr hre,
   fun df bm r e hr hre =>
      fs.get_institution_totals_abort oracle df bm r e hr hre⟩

/-- Witness for C4: under an always-failing oracle the first totals request
is in the trace and the whole `get_totals` call aborts with its error. -/
theorem spec_c4_witness :
    totals_request fs0 "views" "article" 1 ∈
        (fs0.get_totals oracleFail 1 "article" false).2 ∧
      (fs0.get_totals oracleFail 1 "article" false).1 =
        .error (.httpError 500 "server error") :=
  ⟨by decide,
   (spec_c4 fs0 oracleFail).1 1 "article" false
     (totals_request fs0 "views" "article" 1)
     (.httpError 500 "server error") (by decide) rfl⟩

/-- C6: for every supported itemKind, `get_totals` issues exactly the three
counter requests in order views, downloads, shares, extracts the `totals`
field of each body, and returns the mapping with exactly those three keys;
in particular the 42-scenario of the spec. -/
theorem spec_c6 (fs : Figshare) (oracle : Oracle) (item_id : Int)
    (item : String) (jv jd js v1 v2 v3 : Json) (hitem : item ∈ item_kinds)
    (hv : oracle (totals_request fs "views" item item_id) = .ok jv)
    (hv2 : jv.get "totals" = some v1)
    (hd : oracle (totals_request fs "downloads" item item_id) = .ok jd)
    (hd2 : jd.get "totals" = some v2)
    (hs : oracle (totals_request fs "shares" item item_id) = .ok js)
    (hs2 : js.get "totals" = some v3) :
    fs.get_totals oracle item_id item false =
      (.ok [("views", v1), ("downloads", v2), ("shares", v3)],
       [totals_request fs "views" item item_id,
        totals_request fs "downloads" item item_id,
        totals_request fs "shares" item item_id]) := by
  unfold Figshare.get_totals
  rw [if_neg (not_not_intro hitem)]
  simp only [totals_request] at hv hd hs ⊢
  simp [counter_kinds, counter_loop, Figshare.stats_endpoint, hv, hv2, hd, hd2,
    hs, hs2]

/-- Witness for C6: the spec's round-trip scenario with article 99 and
mocked bodies containing totals 42. -/
theorem spec_c6_witness :
    fs0.get_totals oracle42 99 "article" false =
      (.ok [("views", .num 42), ("downloads", .num 42), ("shares", .num 42)],
       [totals_request fs0 "views" "article" 99,
        totals_request fs0 "downloads" "article" 99,
        totals_request fs0 "shares" "article" 99]) :=
  spec_c6 fs0 oracle42 99 "article" (.obj [("totals", .num 42)])
    (.obj [("totals", .num 42)]) (.obj [("totals", .num 42)])
    (.num 42) (.num 42) (.num 42) (by decide) rfl rfl rfl rfl rfl rfl

/-- C7: `get_timeline` validates nothing: for every itemKind string the
first counter request is issued (so no InvalidArgument can precede it), and
on successful responses the result has exactly the three counter keys, each
bound to the `timeline` field of the corresponding body. -/
theorem spec_c7 (fs : Figshare) (item_id : Int) (item granularity : String) :
    (∀ oracle : Oracle,
      ((fs.get_timeline oracle item_id item granularity false).2).head? =
        some (timeline_request fs granularity "views" item item_id)) ∧
    (∀ (oracle : Oracle) (jv jd js t1 t2 t3 : Json),
      oracle (timeline_request fs granularity "views" item item_id) = .ok jv →
      jv.get "timeline" = some t1 →
      oracle (timeline_request fs granularity "downloads" item item_id) = .ok jd →
      jd.get "timeline" = some t2 →
      oracle (timeline_request fs granularity "shares" item item_id) = .ok js →
      js.get "timeline" = some t3 →
      fs.get_timeline oracle item_id item granularity false =
        (.ok [("views", t1), ("downloads", t2), ("shares", t3)],
         [timeline_request fs granularity "views" item item_id,
          timeline_request fs granularity "downloads" item item_id,
          timeline_request fs granularity "shares" item item_id])) := by
  constructor
  · intro oracle
    unfold Figshare.get_timeline
    exact counter_loop_head oracle _ _ "timeline" "views" ["downloads", "shares"]
      _ rfl
  · intro oracle jv jd js t1 t2 t3 hv hv2 hd hd2 hs hs2
    unfold Figshare.get_timeline
    simp only [timeline_request] at hv hd hs ⊢
    simp [counter_kinds, counter_loop, Figshare.stats_endpoint, hv, hv2, hd,
      hd2, hs, hs2]

/-- Witness for C7 at the unsupported kind `bogus`: a request is issued and
the three timeline keys are returned. -/
theorem spec_c7_witness :
    ((fs0.get_timeline oracleTl 5 "bogus" "day" false).2).head? =
        some (timeline_request fs0 "day" "views" "bogus" 5) ∧
      fs0.get_timeline oracleTl 5 "bogus" "day" false =
        (.ok [("views", .arr [.num 7]), ("downloads", .arr [.num 7]),
              ("shares", .arr [.num 7])],
         [timeline_request fs0 "day" "views" "bogus" 5,
          timeline_request fs0 "day" "downloads" "bogus" 5,
          timeline_request fs0 "day" "shares" "bogus" 5]) :=
  ⟨(spec_c7 fs0 5 "bogus" "day").1 oracleTl,
   (spec_c7 fs0 5 "bogus" "day").2 oracleTl (.obj [("timeline", .arr [.num 7])])
     (.obj [("timeline", .arr [.num 7])]) (.obj [("timeline", .arr [.num 7])])
     (.arr [.num 7]) (.arr [.num 7]) (.arr [.num 7]) rfl rfl rfl rfl rfl rfl⟩

/-- C9: on a client constructed without an institute identifier, requesting
an institution-scoped statistics URL fails with the `AttributeError` before
any request exists, and the totals and timeline operations with
`institution=True` fail with that error and an empty request trace. -/
theorem spec_c9 (api_token basic_token : String) (instflag : Bool)
    (oracle : Oracle) (link : String) (item_id : Int)
    (item granularity : String) (hitem : item ∈ item_kinds) :
    (Figshare.init api_token basic_token instflag "").stats_endpoint link true =
      .error (.attributeError "stats_baseurl_institute") ∧
    (Figshare.init api_token basic_token instflag "").get_totals oracle item_id
        item true =
      (.error (.attributeError "stats_baseurl_institute"), []) ∧
    (Figshare.init api_token basic_token instflag "").get_timeline oracle
        item_id item granularity true =
      (.error (.attributeError "stats_baseurl_institute"), []) := by
  have hbase : (Figshare.init api_token basic_token instflag
      "").stats_baseurl_institute = none := rfl
  have hse : ∀ l : String,
      (Figshare.init api_token basic_token instflag "").stats_endpoint l true =
        .error (.attributeError "stats_baseurl_institute") := by
    intro l
    simp [Figshare.stats_endpoint, hbase]
  refine ⟨hse link, ?_, ?_⟩
  · unfold Figshare.get_totals
    rw [if_neg (not_not_intro hitem)]
    simp [counter_kinds, counter_loop, hse]
  · unfold Figshare.get_timeline
    simp [counter_kinds, counter_loop, hse]

/-- Witness for C9 on a tokenless client with no institute. -/
theorem spec_c9_witness :
    (Figshare.init "" "" false "").stats_endpoint "x" true =
      .error (.attributeError "stats_baseurl_institute") ∧
    (Figshare.init "" "" false "").get_totals oracle42 3 "author" true =
      (.error (.attributeError "stats_baseurl_institute"), []) ∧
    (Figshare.init "" "" false "").get_timeline oracle42 3 "author" "day" true =
      (.error (.attributeError "stats_baseurl_institute"), []) :=
  spec_c9 "" "" false oracle42 "x" 3 "author" "day" (by decide)

/-- Helper: a user-lookup URL can never equal the accounts-listing URL of
the same base (the segment after the base starts with `u` versus `a`). -/
theorem users_url_ne_accounts (base s : String) :
    pjoin base "users" ++ "/" ++ s ≠ pjoin base "accounts" := by
  unfold pjoin
  rw [if_neg (by decide : ¬(("users" : String).data.head? = some '/')),
      if_neg (by decide : ¬(("accounts" : String).data.head? = some '/'))]
  by_cases hb : base = "" ∨ base.data.getLast? = some '/'
  · rw [if_pos hb, if_pos hb]
    intro h
    have h2 := congrArg String.data h
    simp only [String.data_append, List.append_assoc] at h2
    have h3 := List.append_cancel_left h2
    simp only [List.cons_append] at h3
    injection h3 with h4 h5
    exact absurd h4 (by decide)
  · rw [if_neg hb, if_neg hb]
    intro h
    have h2 := congrArg String.data h
    simp only [String.data_append, List.append_assoc] at h2
    have h3 := List.append_cancel_left h2
    have h4 := List.append_cancel_left h3
    simp only [List.cons_append] at h4
    injection h4 with h5 h6
    exact absurd h5 (by decide)

/-- Helper: every request of `get_user_totals` is one of the three
non-institution author totals requests. -/
theorem Figshare.get_user_totals_trace (fs : Figshare) (oracle : Oracle)
    (a : Int) (r : Request) (hr : r ∈ (fs.get_user_totals oracle a).2) :
    ∃ c ∈ counter_kinds, r = totals_request fs c "author" a := by
  unfold Figshare.get_user_totals Figshare.get_totals at hr
  rw [if_neg (not_not_intro (by decide : "author" ∈ item_kinds))] at hr
  obtain ⟨c, hc, url, hu, hreq⟩ :=
    counter_loop_trace _ _ _ _ counter_kinds r hr
  refine ⟨c, hc, ?_⟩
  unfold Figshare.stats_endpoint at hu
  rw [if_neg (by decide : ¬(false = true))] at hu
  injection hu with hu2
  rw [hreq, ← hu2]
  rfl

/-- C2: with a supplied accounts table of any size, `get_institution_totals`
behaves exactly as on the first six rows (labels 0 through 5), queries
totals only for those rows, and keys the successful result by the string
form of each of their author ids. -/
theorem spec_c2 (fs : Figshare) (oracle : Oracle) (df : List AuthorRow)
    (by_method : String) (_h6 : 6 ≤ df.length) :
    fs.get_institution_totals oracle (some df) by_method =
      fs.get_institution_totals oracle (some (loc_0_5 df)) by_method ∧
    (∀ r ∈ (fs.get_institution_totals oracle (some df) by_method).2.1,
      ∃ row ∈ loc_0_5 df, ∃ c ∈ counter_kinds,
        r = totals_request fs c "author" row.author_id) ∧
    (∀ m, (fs.get_institution_totals oracle (some df) by_method).1 = .ok m →
      ∀ k, k ∈ m.map Prod.fst ↔
        ∃ row ∈ loc_0_5 df, k = toString row.author_id) := by
  refine ⟨?_, ?_, ?_⟩
  · simp [Figshare.get_institution_totals, loc_0_5, List.take_take]
  · intro r hr
    simp only [Figshare.get_institution_totals] at hr
    obtain ⟨a, ha, hmem⟩ := inst_loop_trace fs oracle
      ((loc_0_5 df).map fun x => x.author_id) [] r hr
    obtain ⟨row, hrow, hae⟩ := List.mem_map.mp ha
    have hae2 : row.author_id = a := hae
    obtain ⟨c, hc, hreq⟩ := fs.get_user_totals_trace oracle a r hmem
    exact ⟨row, hrow, c, hc, by rw [hreq, hae2]⟩
  · intro m hm k
    simp only [Figshare.get_institution_totals] at hm
    have hk := inst_loop_keys fs oracle ((loc_0_5 df).map fun x => x.author_id)
      [] m hm k
    simp only [List.map_nil, List.not_mem_nil, false_or] at hk
    rw [hk]
    constructor
    · rintro ⟨a, ha, hk2⟩
      obtain ⟨row, hrow, hae⟩ := List.mem_map.mp ha
      have hae2 : row.author_id = a := hae
      exact ⟨row, hrow, by rw [hk2, hae2]⟩
    · rintro ⟨row, hrow, hk2⟩
      exact ⟨row.author_id, List.mem_map.mpr ⟨row, hrow, rfl⟩, hk2⟩

/-- Witness for C2 on the seven-row table: the call coincides with the call
on the first six rows. -/
theorem spec_c2_witness :
    6 ≤ df7.length ∧
      fs0.get_institution_totals oracle42 (some df7) "author" =
        fs0.get_institution_totals oracle42 (some (loc_0_5 df7)) "author" :=
  ⟨by decide, (spec_c2 fs0 oracle42 df7 "author" (by decide)).1⟩

/-- C8: `retrieve_institution_users` issues the accounts listing exactly
once, as its first request, with query parameters page=1 and
page_size=1000; every later request carries no query parameters and targets
a different URL, so no second page is ever requested. -/
theorem spec_c8 (fs : Figshare) (oracle : Oracle) (ia : Bool) (base : String)
    (hb : fs.main_baseurl_institute = some base) :
    ((fs.retrieve_institution_users oracle ia).2.1).head? =
      some (accounts_request base fs.api_headers) ∧
    ∀ r ∈ ((fs.retrieve_institution_users oracle ia).2.1).tail,
      r.params = none ∧ r.url ≠ (accounts_request base fs.api_headers).url := by
  have hgf : ∀ rows : List AccountRow,
      fs.get_figshare_id oracle rows =
        figshare_id_loop oracle fs.api_headers (pjoin base "users") rows := by
    intro rows
    unfold Figshare.get_figshare_id
    rw [hb]
  unfold Figshare.retrieve_institution_users
  simp only [hb]
  cases ho : oracle ⟨"GET", pjoin base "accounts", fs.api_headers,
      some [("page", 1), ("page_size", 1000)]⟩ with
  | error e =>
    simp only [ho]
    exact ⟨rfl, by simp⟩
  | ok accounts =>
    simp only [ho]
    cases hp : parse_accounts accounts with
    | none =>
      simp only [hp]
      exact ⟨rfl, by simp⟩
    | some rows =>
      simp only [hp]
      constructor
      · rfl
      · intro r hr
        replace hr : r ∈ (fs.get_figshare_id oracle
            (if ia = true then admin_filter rows else rows)).2 := hr
        rw [hgf] at hr
        obtain ⟨i, hreq⟩ := figshare_id_loop_trace oracle fs.api_headers
          (pjoin base "users") _ r hr
        subst hreq
        exact ⟨rfl, users_url_ne_accounts base (toString i)⟩

/-- Witness for C8 on an institution-flagged client with a mocked accounts
listing. -/
theorem spec_c8_witness :
    ((fsT.retrieve_institution_users oracleAcc false).2.1).head? =
      some (accounts_request "https://api.figshare.com/v2/account/institution"
        fsT.api_headers) ∧
    ∀ r ∈ ((fsT.retrieve_institution_users oracleAcc false).2.1).tail,
      r.params = none ∧
        r.url ≠ (accounts_request
          "https://api.figshare.com/v2/account/institution" fsT.api_headers).url :=
  spec_c8 fsT oracleAcc false
    "https://api.figshare.com/v2/account/institution" rfl
